import Mathlib

set_option maxHeartbeats 1000000

/-!
Verification of the poem-analysis core of the postdata-api repository
(file pd_poem.py). The definitions below are a shallow embedding of the
methods of class PostdataPoem; simplified SPARQL query results are the
inputs (the normalizer and the triple store are external collaborators).
-/

/-- Values appearing in simplified SPARQL result rows: Python ints or strings. -/
inductive PyVal where
  | vint (n : Int)
  | vstr (s : String)
deriving DecidableEq, Repr

/-- Python equality test between two values of possibly different runtime
types: integers compare numerically, strings compare as strings, and a
comparison across the two types yields False. -/
def pyEq : PyVal → PyVal → Bool
  | PyVal.vint n, PyVal.vint m => n == m
  | PyVal.vstr s, PyVal.vstr t => s == t
  | _, _ => false

/-- Decimal digit value of a character, none for non-digits. -/
def charDigit (c : Char) : Option Nat :=
  if 48 ≤ c.toNat ∧ c.toNat ≤ 57 then some (c.toNat - 48) else none

/-- Accumulating decimal parse of a character list; fails on the first
non-digit character. -/
def parseNatGo (acc : Nat) : List Char → Option Nat
  | [] => some acc
  | c :: cs =>
    match charDigit c with
    | none => none
    | some d => parseNatGo (acc * 10 + d) cs

/-- Python int() applied to a string: an optional sign followed by at
least one decimal digit (surrounding whitespace and underscore separators,
which Python also accepts, are not modelled). -/
def pyIntOfString (s : String) : Option Int :=
  match s.data with
  | [] => none
  | '-' :: cs =>
    match cs with
    | [] => none
    | _ => (parseNatGo 0 cs).map (fun n => -(n : Int))
  | '+' :: cs =>
    match cs with
    | [] => none
    | _ => (parseNatGo 0 cs).map (fun n => (n : Int))
  | cs => (parseNatGo 0 cs).map (fun n => (n : Int))

/-- Python int conversion: identity on integers, decimal parse on strings,
failing (ValueError) on non-numeric strings. -/
def pyToInt : PyVal → Option Int
  | PyVal.vint n => some n
  | PyVal.vstr s => pyIntOfString s

/-- Python str conversion. -/
def pyStr : PyVal → PyVal
  | PyVal.vint n => PyVal.vstr (toString n)
  | PyVal.vstr s => PyVal.vstr s

/-- Coercion of the value field performed at the top of the loop body of
method group_feature_by_stanzas in pd_poem.py (lines 374 to 379): flag
int or Integer applies int(), flag str or String applies str(), any other
flag leaves the value untouched. -/
def coerceValue (value_datatype : String) (v : PyVal) : Option PyVal :=
  if value_datatype = "int" ∨ value_datatype = "Integer" then
    (pyToInt v).map PyVal.vint
  else if value_datatype = "str" ∨ value_datatype = "String" then
    some (pyStr v)
  else
    some v

/-- One simplified SPARQL binding, restricted to the two fields that the
grouping method reads: the stanza number field and the value field. -/
structure SparqlBinding where
  stanzaNo : PyVal
  value : PyVal
deriving DecidableEq, Repr

/-- Loop state of group_feature_by_stanzas: the output accumulator, the
accumulator of the current stanza, and the current stanza marker. -/
structure GroupState where
  grouped_results : List (List PyVal)
  stanza : List PyVal
  current_stanza : PyVal
deriving DecidableEq, Repr

/-- Body of the loop of group_feature_by_stanzas (pd_poem.py lines 370 to
396): coerce the value field, then either extend the current stanza when
the stanza number equals the current stanza marker, or close the current
stanza (emitting it only when int of the marker is positive) and start a
new one. -/
def groupStep (value_datatype : String) (st : GroupState) (binding : SparqlBinding) :
    Option GroupState :=
  match coerceValue value_datatype binding.value with
  | none => none
  | some value =>
    if pyEq st.current_stanza binding.stanzaNo then
      some { st with stanza := st.stanza ++ [value] }
    else
      match pyToInt st.current_stanza with
      | none => none
      | some c =>
        some { grouped_results :=
                 if 0 < c then st.grouped_results ++ [st.stanza] else st.grouped_results,
               stanza := [value],
               current_stanza := binding.stanzaNo }

/-- Iteration of groupStep over the simplified result rows. -/
def groupLoop (value_datatype : String) (st : GroupState) :
    List SparqlBinding → Option GroupState
  | [] => some st
  | b :: bs =>
    match groupStep value_datatype st b with
    | none => none
    | some st2 => groupLoop value_datatype st2 bs

/-- Embedding of method group_feature_by_stanzas of pd_poem.py (lines 337
to 401): run the loop from the initial state (empty output, empty stanza,
current stanza marker at the sentinel 0) and unconditionally append the
final accumulator after the loop. -/
def group_feature_by_stanzas (simplified_sparql_results : List SparqlBinding)
    (value_datatype : String := "int") : Option (List (List PyVal)) :=
  match groupLoop value_datatype ⟨[], [], PyVal.vint 0⟩ simplified_sparql_results with
  | none => none
  | some st => some (st.grouped_results ++ [st.stanza])

/-- Reference partition: maximal runs of adjacent rows with equal stanza
numbers, tracked with an explicit current key and accumulator. -/
def stanzaRunsGo (curKey : PyVal) (acc : List SparqlBinding) :
    List SparqlBinding → List (List SparqlBinding)
  | [] => [acc]
  | x :: xs =>
    if pyEq curKey x.stanzaNo then stanzaRunsGo curKey (acc ++ [x]) xs
    else acc :: stanzaRunsGo x.stanzaNo [x] xs

/-- Reference partition of a row sequence into maximal runs of adjacent
rows carrying equal stanza numbers, in input order. -/
def stanzaRuns : List SparqlBinding → List (List SparqlBinding)
  | [] => []
  | r :: rs => stanzaRunsGo r.stanzaNo [r] rs

/-- Literal grouping input of the specification: five rows of stanza and
value pairs. -/
def literalRows : List SparqlBinding :=
  [⟨PyVal.vint 1, PyVal.vstr "a"⟩, ⟨PyVal.vint 1, PyVal.vstr "b"⟩,
   ⟨PyVal.vint 2, PyVal.vstr "c"⟩, ⟨PyVal.vint 2, PyVal.vstr "d"⟩,
   ⟨PyVal.vint 2, PyVal.vstr "e"⟩]

/-- Python truthiness of an optional string attribute: None and the empty
string are falsy. -/
def pyTruthyStr : Option String → Bool
  | none => false
  | some s => !(s == "")

/-- Python truthiness of an optional list attribute: None and the empty
list are falsy. -/
def pyTruthyList : Option (List String) → Bool
  | none => false
  | some l => !l.isEmpty

/-- Embedding of method get_title of pd_poem.py (lines 121 to 147). The
arguments are the cached title attribute, the presence of a database
connection, the uri attribute, and the simplified result list of the
title query (the normalizer is an external collaborator). A result list
of length different from one falls into the raising branch. -/
def get_title (title : Option String) (database : Bool) (uri : Option String)
    (title_list : List String) : Except String String :=
  if pyTruthyStr title then Except.ok (title.getD "")
  else if database then
    if pyTruthyStr uri then
      match title_list with
      | [t] => Except.ok t
      | _ => Except.error "Poem has multiple titles. Not implemented."
    else Except.error "No URI of the poem specified. Can not get any attributes."
  else Except.error "Database Connection not available."

/-- Embedding of method get_creation_year of pd_poem.py (lines 149 to
184): zero result rows resolve to None, one row resolves to its value,
more than one row raises. -/
def get_creation_year (creation_year : Option String) (database : Bool)
    (uri : Option String) (data : List String) : Except String (Option String) :=
  if pyTruthyStr creation_year then Except.ok creation_year
  else if database then
    if pyTruthyStr uri then
      match data with
      | [] => Except.ok none
      | [y] => Except.ok (some y)
      | _ => Except.error "Multiple values for creation year. Not implemented."
    else Except.error "No URI of the poem specified. Can not get any attributes."
  else Except.error "Database Connection not available."

/-- Embedding of method get_author_uris of pd_poem.py (lines 222 to 250):
zero result rows set the attribute to None, otherwise the whole list is
kept. -/
def get_author_uris (author_uris : Option (List String)) (database : Bool)
    (uri : Option String) (data : List String) : Except String (Option (List String)) :=
  if pyTruthyList author_uris then Except.ok author_uris
  else if database then
    if pyTruthyStr uri then
      if data.length == 0 then Except.ok none else Except.ok (some data)
    else Except.error "No URI of the poem specified. Can not get any attributes."
  else Except.error "Database Connection not available."

/-- Embedding of method load_authors of pd_poem.py (lines 252 to 276).
The result is the loaded authors attribute: some list when the method
returns True, none when it returns False because there are no authors in
the data. Each author entity of the external Author collaborator is
represented by its uri. -/
def load_authors (author_uris : Option (List String)) (database : Bool)
    (uri : Option String) (data : List String) : Except String (Option (List String)) :=
  match (if pyTruthyList author_uris then Except.ok author_uris
         else get_author_uris author_uris database uri data) with
  | Except.error e => Except.error e
  | Except.ok uris => if pyTruthyList uris then Except.ok uris else Except.ok none

/-- Record assembled by get_analysis of pd_poem.py (lines 644 to 708),
one field per sub query result. -/
structure Analysis where
  sourceUri : PyVal
  numOfStanzas : PyVal
  numOfLines : PyVal
  numOfWords : PyVal
  numOfLinesInStanzas : List PyVal
  rhymeSchemesOfStanzas : List PyVal
  numOfMetricalSyllables : PyVal
  numOfGrammaticalSyllables : PyVal
  numOfMetricalSyllablesInStanzas : List (List PyVal)
  numOfGrammaticalSyllablesInStanzas : List (List PyVal)
  numOfWordsInStanzas : List (List PyVal)
  grammaticalStressPatternsInStanzas : List (List PyVal)
  metricalPatternsInStanzas : List (List PyVal)
deriving DecidableEq, Repr

/-- External query store, one field per SPARQL query class used by the
analysis methods, holding the simplified result rows that the execution
adapter together with the normalizer would return for this poem. -/
structure Store where
  scansionUris : List PyVal
  stanzaCount : List PyVal
  lineCount : List PyVal
  wordCount : List PyVal
  linesInStanzas : List PyVal
  rhymeSchemes : List PyVal
  metricalSyllableCount : List PyVal
  grammaticalSyllableCount : List PyVal
  metricalSyllablesRows : List SparqlBinding
  grammaticalSyllablesRows : List SparqlBinding
  wordsRows : List SparqlBinding
  stressRows : List SparqlBinding
  metricalPatternRows : List SparqlBinding
deriving DecidableEq, Repr

/-- Mutable state of a poem instance during analysis: the number of
queries executed against the store so far and the memoized
automatic_analysis attribute. -/
structure AnState where
  queryCount : Nat
  automatic_analysis : Option Analysis
deriving DecidableEq, Repr

/-- Result of a stateful fallible operation on a poem instance: a Python
exception leaves the instance fields as they were when it was raised. -/
abbrev QRes (α : Type) := Except String α × AnState

/-- Sequencing of stateful fallible operations. -/
def qbind {α β : Type} (x : QRes α) (f : α → AnState → QRes β) : QRes β :=
  match x with
  | (Except.ok a, s) => f a s
  | (Except.error e, s) => (Except.error e, s)

/-- Counting one query round trip to the store. -/
def incrQuery (s : AnState) : AnState := { s with queryCount := s.queryCount + 1 }

/-- Embedding of the private wrapper execute_sparql_query of pd_poem.py
(lines 319 to 335): check the connection, check the uri, execute, and
hand back the simplified results supplied by the store. -/
def execute_sparql_query {α : Type} (database : Bool) (uri : Option String)
    (rows : α) (s : AnState) : QRes α :=
  if database then
    if pyTruthyStr uri then (Except.ok rows, incrQuery s)
    else (Except.error "No URI of the poem specified. Can not get any attributes.", s)
  else (Except.error "Database Connection not available.", s)

/-- Python indexing with 0 of a simplified result list, raising IndexError
on an empty list. -/
def firstElem {α : Type} : List α → Except String α
  | [] => Except.error "IndexError: list index out of range"
  | x :: _ => Except.ok x

/-- Lift of the grouping helper into the fallible world: a failing int
coercion inside the loop is a raised ValueError. -/
def liftGroup (r : Option (List (List PyVal))) : Except String (List (List PyVal)) :=
  match r with
  | some g => Except.ok g
  | none => Except.error "ValueError: invalid literal for int()"

/-- Embedding of get_automatic_scansion_uri of pd_poem.py (lines 403 to
415): the first element of the simplified result list is returned, with
no check against further elements. -/
def get_automatic_scansion_uri (database : Bool) (uri : Option String)
    (store : Store) (s : AnState) : QRes PyVal :=
  qbind (execute_sparql_query database uri store.scansionUris s)
    (fun res s2 => (firstElem res, s2))

/-- Embedding of get_number_of_stanzas of pd_poem.py (lines 417 to 428). -/
def get_number_of_stanzas (database : Bool) (uri : Option String)
    (store : Store) (s : AnState) : QRes PyVal :=
  qbind (execute_sparql_query database uri store.stanzaCount s)
    (fun res s2 => (firstElem res, s2))

/-- Embedding of get_number_of_lines of pd_poem.py (lines 430 to 441). -/
def get_number_of_lines (database : Bool) (uri : Option String)
    (store : Store) (s : AnState) : QRes PyVal :=
  qbind (execute_sparql_query database uri store.lineCount s)
    (fun res s2 => (firstElem res, s2))

/-- Embedding of get_number_of_words of pd_poem.py (lines 443 to 454). -/
def get_number_of_words (database : Bool) (uri : Option String)
    (store : Store) (s : AnState) : QRes PyVal :=
  qbind (execute_sparql_query database uri store.wordCount s)
    (fun res s2 => (firstElem res, s2))

/-- Embedding of get_number_of_syllables of pd_poem.py (lines 456 to 490):
the syllable type is validated first, then the query for the chosen
predicate is executed and the first element of its simplified result is
returned. -/
def get_number_of_syllables (syllable_type : String) (database : Bool)
    (uri : Option String) (store : Store) (s : AnState) : QRes PyVal :=
  if syllable_type == "metrical" then
    qbind (execute_sparql_query database uri store.metricalSyllableCount s)
      (fun res s2 => (firstElem res, s2))
  else if syllable_type == "grammatical" then
    qbind (execute_sparql_query database uri store.grammaticalSyllableCount s)
      (fun res s2 => (firstElem res, s2))
  else (Except.error "Syllable Type is not valid.", s)

/-- Embedding of get_number_of_lines_in_stanzas of pd_poem.py (lines 492
to 503): the whole simplified result list is returned. -/
def get_number_of_lines_in_stanzas (database : Bool) (uri : Option String)
    (store : Store) (s : AnState) : QRes (List PyVal) :=
  qbind (execute_sparql_query database uri store.linesInStanzas s)
    (fun res s2 => (Except.ok res, s2))

/-- Embedding of get_rhyme_schemes_of_stanzas of pd_poem.py (lines 505 to
515). -/
def get_rhyme_schemes_of_stanzas (database : Bool) (uri : Option String)
    (store : Store) (s : AnState) : QRes (List PyVal) :=
  qbind (execute_sparql_query database uri store.rhymeSchemes s)
    (fun res s2 => (Except.ok res, s2))

/-- Embedding of get_number_of_syllables_in_stanzas of pd_poem.py (lines
517 to 557): validate the syllable type, execute the per line query, and
group the counts by stanzas with the int datatype flag. -/
def get_number_of_syllables_in_stanzas (syllable_type : String) (database : Bool)
    (uri : Option String) (store : Store) (s : AnState) : QRes (List (List PyVal)) :=
  if syllable_type == "metrical" then
    qbind (execute_sparql_query database uri store.metricalSyllablesRows s)
      (fun res s2 => (liftGroup (group_feature_by_stanzas res "int"), s2))
  else if syllable_type == "grammatical" then
    qbind (execute_sparql_query database uri store.grammaticalSyllablesRows s)
      (fun res s2 => (liftGroup (group_feature_by_stanzas res "int"), s2))
  else (Except.error "Syllable Type is not valid.", s)

/-- Embedding of get_number_of_words_in_stanzas of pd_poem.py (lines 559
to 586). -/
def get_number_of_words_in_stanzas (database : Bool) (uri : Option String)
    (store : Store) (s : AnState) : QRes (List (List PyVal)) :=
  qbind (execute_sparql_query database uri store.wordsRows s)
    (fun res s2 => (liftGroup (group_feature_by_stanzas res "int"), s2))

/-- Embedding of get_grammatical_stress_patterns_in_stanzas of pd_poem.py
(lines 588 to 614): grouping with the str datatype flag. -/
def get_grammatical_stress_patterns_in_stanzas (database : Bool) (uri : Option String)
    (store : Store) (s : AnState) : QRes (List (List PyVal)) :=
  qbind (execute_sparql_query database uri store.stressRows s)
    (fun res s2 => (liftGroup (group_feature_by_stanzas res "str"), s2))

/-- Embedding of get_metrical_patterns_in_stanzas of pd_poem.py (lines
616 to 642). -/
def get_metrical_patterns_in_stanzas (database : Bool) (uri : Option String)
    (store : Store) (s : AnState) : QRes (List (List PyVal)) :=
  qbind (execute_sparql_query database uri store.metricalPatternRows s)
    (fun res s2 => (liftGroup (group_feature_by_stanzas res "str"), s2))

/-- The else branch of get_analysis of pd_poem.py (lines 685 to 705): the
thirteen sub queries executed in source order, assembling the analysis
record on full success. -/
def compute_analysis (database : Bool) (uri : Option String) (store : Store)
    (s : AnState) : QRes Analysis :=
  qbind (get_automatic_scansion_uri database uri store s) (fun u s =>
  qbind (get_number_of_stanzas database uri store s) (fun ns s =>
  qbind (get_number_of_lines database uri store s) (fun nl s =>
  qbind (get_number_of_words database uri store s) (fun nw s =>
  qbind (get_number_of_lines_in_stanzas database uri store s) (fun nls s =>
  qbind (get_rhyme_schemes_of_stanzas database uri store s) (fun rh s =>
  qbind (get_number_of_syllables "metrical" database uri store s) (fun nms s =>
  qbind (get_number_of_syllables "grammatical" database uri store s) (fun ngs s =>
  qbind (get_number_of_syllables_in_stanzas "metrical" database uri store s) (fun nmss s =>
  qbind (get_number_of_syllables_in_stanzas "grammatical" database uri store s) (fun ngss s =>
  qbind (get_number_of_words_in_stanzas database uri store s) (fun nws s =>
  qbind (get_grammatical_stress_patterns_in_stanzas database uri store s) (fun gsp s =>
  qbind (get_metrical_patterns_in_stanzas database uri store s) (fun mp s =>
  (Except.ok ⟨u, ns, nl, nw, nls, rh, nms, ngs, nmss, ngss, nws, gsp, mp⟩, s))))))))))))))

/-- Embedding of get_analysis of pd_poem.py (lines 644 to 708): return the
memoized record when the attribute is set, otherwise run all sub queries,
cache the assembled record on the instance and return it. -/
def get_analysis (database : Bool) (uri : Option String) (store : Store)
    (s : AnState) : QRes Analysis :=
  match s.automatic_analysis with
  | some a => (Except.ok a, s)
  | none =>
    qbind (compute_analysis database uri store s)
      (fun a s2 => (Except.ok a, { s2 with automatic_analysis := some a }))

/-- Values of the metadata mapping of get_metadata. -/
inductive MetaVal where
  | vopt (s : Option String)
  | vstr (s : String)
  | vauthors (uris : List String)
  | vanalysis (a : Analysis)
deriving DecidableEq, Repr

/-- Base metadata mapping assembled first by get_metadata of pd_poem.py
(lines 293 to 299). -/
def base_metadata (pid puri pname : Option String) (plurl : String) :
    List (String × MetaVal) :=
  [("id", MetaVal.vopt pid), ("uri", MetaVal.vopt puri), ("name", MetaVal.vopt pname),
   ("source", MetaVal.vstr plurl), ("sourceUri", MetaVal.vstr "POSTDATA Poetry Lab")]

/-- Embedding of method get_metadata of pd_poem.py (lines 278 to 310).
The poetry lab url is passed as an input because it is a pure derivation
from the uri. The authors key is added only when load_authors signals
success; the analysis key is added only when requested. -/
def get_metadata (pid puri pname : Option String) (plurl : String)
    (include_authors include_analysis : Bool)
    (author_uris : Option (List String)) (database : Bool)
    (author_data : List String) (store : Store) (s : AnState) :
    QRes (List (String × MetaVal)) :=
  let metadata := base_metadata pid puri pname plurl
  let withAuthors : Except String (List (String × MetaVal)) :=
    if include_authors then
      match load_authors author_uris database puri author_data with
      | Except.error e => Except.error e
      | Except.ok (some uris) => Except.ok (metadata ++ [("authors", MetaVal.vauthors uris)])
      | Except.ok none => Except.ok metadata
    else Except.ok metadata
  match withAuthors with
  | Except.error e => (Except.error e, s)
  | Except.ok md =>
    if include_analysis then
      qbind (get_analysis database puri store s)
        (fun a s2 => (Except.ok (md ++ [("analysis", MetaVal.vanalysis a)]), s2))
    else (Except.ok md, s)

/-- A stateful operation preserves the memoized analysis attribute when
every execution leaves it exactly as it was. -/
def CachePreserving {α : Type} (f : AnState → QRes α) : Prop :=
  ∀ s : AnState, ((f s).2).automatic_analysis = s.automatic_analysis

/-- Fully populated demonstration store for one poem with a single one
line stanza, used by the concrete witnesses. -/
def demoStore : Store :=
  { scansionUris := [PyVal.vstr "scansion1", PyVal.vstr "scansion2"]
    stanzaCount := [PyVal.vint 1]
    lineCount := [PyVal.vint 1]
    wordCount := [PyVal.vint 2]
    linesInStanzas := [PyVal.vint 1]
    rhymeSchemes := [PyVal.vstr "a"]
    metricalSyllableCount := [PyVal.vint 5]
    grammaticalSyllableCount := [PyVal.vint 6]
    metricalSyllablesRows := [⟨PyVal.vint 1, PyVal.vint 5⟩]
    grammaticalSyllablesRows := [⟨PyVal.vint 1, PyVal.vint 6⟩]
    wordsRows := [⟨PyVal.vint 1, PyVal.vint 2⟩]
    stressRows := [⟨PyVal.vint 1, PyVal.vstr "+-"⟩]
    metricalPatternRows := [⟨PyVal.vint 1, PyVal.vstr "+-"⟩] }

/-- Analysis record that get_analysis assembles for demoStore. -/
def demoAnalysis : Analysis :=
  { sourceUri := PyVal.vstr "scansion1"
    numOfStanzas := PyVal.vint 1
    numOfLines := PyVal.vint 1
    numOfWords := PyVal.vint 2
    numOfLinesInStanzas := [PyVal.vint 1]
    rhymeSchemesOfStanzas := [PyVal.vstr "a"]
    numOfMetricalSyllables := PyVal.vint 5
    numOfGrammaticalSyllables := PyVal.vint 6
    numOfMetricalSyllablesInStanzas := [[PyVal.vint 5]]
    numOfGrammaticalSyllablesInStanzas := [[PyVal.vint 6]]
    numOfWordsInStanzas := [[PyVal.vint 2]]
    grammaticalStressPatternsInStanzas := [[PyVal.vstr "+-"]]
    metricalPatternsInStanzas := [[PyVal.vstr "+-"]] }

/-- Demonstration store whose scansion uri query returns no rows, so the
very first sub step of the analysis raises. -/
def demoStoreNoScansion : Store := { demoStore with scansionUris := [] }

-- THEOREMS

/-- A run of rows whose stanza numbers all equal the current marker only
extends the stanza accumulator, one coerced value per row. -/
theorem groupLoop_same_stanza (d : String) (run : List SparqlBinding) :
    ∀ st : GroupState,
    (∀ r ∈ run, pyEq st.current_stanza r.stanzaNo = true) →
    (∀ r ∈ run, coerceValue d r.value = some r.value) →
    groupLoop d st run = some { st with stanza := st.stanza ++ run.map SparqlBinding.value } := by
  induction run with
  | nil => intro st _ _; simp [groupLoop]
  | cons r rs ih =>
    intro st h1 h2
    have hr1 : pyEq st.current_stanza r.stanzaNo = true := h1 r (List.mem_cons_self r rs)
    have hr2 : coerceValue d r.value = some r.value := h2 r (List.mem_cons_self r rs)
    simp only [groupLoop, groupStep, hr2, hr1, if_true]
    rw [ih { st with stanza := st.stanza ++ [r.value] }
      (fun x hx => h1 x (List.mem_cons_of_mem r hx))
      (fun x hx => h2 x (List.mem_cons_of_mem r hx))]
    simp

/-- A run of rows whose stanza numbers all equal the current marker, with
coercion succeeding on every row, only extends the stanza accumulator. -/
theorem groupLoop_same_stanza_total (d : String) (run : List SparqlBinding) :
    ∀ st : GroupState,
    (∀ r ∈ run, pyEq st.current_stanza r.stanzaNo = true) →
    (∀ r ∈ run, (coerceValue d r.value).isSome = true) →
    ∃ ws : List PyVal, groupLoop d st run = some { st with stanza := st.stanza ++ ws } := by
  induction run with
  | nil => intro st _ _; exact ⟨[], by simp [groupLoop]⟩
  | cons r rs ih =>
    intro st h1 h2
    obtain ⟨w, hw⟩ := Option.isSome_iff_exists.mp (h2 r (List.mem_cons_self r rs))
    have hr1 : pyEq st.current_stanza r.stanzaNo = true := h1 r (List.mem_cons_self r rs)
    obtain ⟨ws, hws⟩ := ih { st with stanza := st.stanza ++ [w] }
      (fun x hx => h1 x (List.mem_cons_of_mem r hx))
      (fun x hx => h2 x (List.mem_cons_of_mem r hx))
    refine ⟨w :: ws, ?_⟩
    simp only [groupLoop, groupStep, hw, hr1, if_true]
    rw [hws]
    simp

/-- Invariant of the grouping loop against the reference run partition:
from a state holding an open accumulator for the rows of accB under a
marker whose int value is positive, the loop closes and emits exactly the
runs of adjacent equal stanza numbers. -/
theorem groupLoop_runsGo (d : String) :
    ∀ rows : List SparqlBinding,
    (∀ r ∈ rows, ∃ k : Int, pyToInt r.stanzaNo = some k ∧ 0 < k) →
    (∀ r ∈ rows, coerceValue d r.value = some r.value) →
    ∀ (g : List (List PyVal)) (accB : List SparqlBinding) (curKey : PyVal) (k : Int),
      pyToInt curKey = some k → 0 < k →
      ∃ st2, groupLoop d ⟨g, accB.map SparqlBinding.value, curKey⟩ rows = some st2 ∧
        st2.grouped_results ++ [st2.stanza] =
          g ++ (stanzaRunsGo curKey accB rows).map (List.map SparqlBinding.value) := by
  intro rows
  induction rows with
  | nil =>
    intro _ _ g accB curKey k _ _
    exact ⟨⟨g, accB.map SparqlBinding.value, curKey⟩, by simp [groupLoop], by simp [stanzaRunsGo]⟩
  | cons x xs ih =>
    intro hpos hcoe g accB curKey k hk hkpos
    have hx2 : coerceValue d x.value = some x.value := hcoe x (List.mem_cons_self x xs)
    have hpos2 : ∀ r ∈ xs, ∃ j : Int, pyToInt r.stanzaNo = some j ∧ 0 < j :=
      fun r hr => hpos r (List.mem_cons_of_mem x hr)
    have hcoe2 : ∀ r ∈ xs, coerceValue d r.value = some r.value :=
      fun r hr => hcoe r (List.mem_cons_of_mem x hr)
    by_cases h : pyEq curKey x.stanzaNo = true
    · have step : groupStep d ⟨g, accB.map SparqlBinding.value, curKey⟩ x =
          some ⟨g, (accB ++ [x]).map SparqlBinding.value, curKey⟩ := by
        simp [groupStep, hx2, h]
      obtain ⟨st2, hloop, heq⟩ := ih hpos2 hcoe2 g (accB ++ [x]) curKey k hk hkpos
      refine ⟨st2, ?_, ?_⟩
      · simp only [groupLoop, step]
        exact hloop
      · rw [heq]
        simp [stanzaRunsGo, h]
    · have h2 : pyEq curKey x.stanzaNo = false := by simpa using h
      obtain ⟨k2, hk2, hk2pos⟩ := hpos x (List.mem_cons_self x xs)
      have step : groupStep d ⟨g, accB.map SparqlBinding.value, curKey⟩ x =
          some ⟨g ++ [accB.map SparqlBinding.value], List.map SparqlBinding.value [x], x.stanzaNo⟩ := by
        simp [groupStep, hx2, h2, hk, hkpos]
      obtain ⟨st2, hloop, heq⟩ :=
        ih hpos2 hcoe2 (g ++ [accB.map SparqlBinding.value]) [x] x.stanzaNo k2 hk2 hk2pos
      refine ⟨st2, ?_, ?_⟩
      · simp only [groupLoop, step]
        exact hloop
      · rw [heq]
        simp [stanzaRunsGo, h2]

/-- Running the grouping loop over an appended list runs it over the two
parts in sequence. -/
theorem groupLoop_append (d : String) (l1 l2 : List SparqlBinding) :
    ∀ st, groupLoop d st (l1 ++ l2) =
      match groupLoop d st l1 with
      | none => none
      | some st2 => groupLoop d st2 l2 := by
  induction l1 with
  | nil => intro st; simp [groupLoop]
  | cons b bs ih =>
    intro st
    simp only [List.cons_append, groupLoop]
    cases groupStep d st b with
    | none => rfl
    | some st2 => exact ih st2

/-- C1: group_feature_by_stanzas partitions a line ordered input into
stanzas at stanza number changes, starting from the sentinel marker 0,
preserving line order within each stanza and stanza order across the
poem: for rows with positive integer stanza numbers and an order
preserving value coercion, the output is exactly the sequence of maximal
runs of adjacent rows with equal stanza numbers, each mapped to its
values. The literal instance of the claim is checked in the witness. -/
theorem C1_group_feature_by_stanzas_partitions (d : String) (rows : List SparqlBinding)
    (hne : rows ≠ [])
    (hpos : ∀ r ∈ rows, ∃ k : Int, pyToInt r.stanzaNo = some k ∧ 0 < k)
    (hcoe : ∀ r ∈ rows, coerceValue d r.value = some r.value) :
    group_feature_by_stanzas rows d =
      some ((stanzaRuns rows).map (List.map SparqlBinding.value)) := by
  cases rows with
  | nil => exact absurd rfl hne
  | cons r rs =>
    obtain ⟨k, hk, hkpos⟩ := hpos r (List.mem_cons_self r rs)
    have h0 : pyEq (PyVal.vint 0) r.stanzaNo = false := by
      cases hsn : r.stanzaNo with
      | vint m =>
        rw [hsn] at hk
        simp only [pyToInt, Option.some.injEq] at hk
        simp only [pyEq]
        have hne0 : (0 : Int) ≠ m := by omega
        simpa [beq_eq_false_iff_ne] using hne0
      | vstr s => simp [pyEq]
    have hr2 : coerceValue d r.value = some r.value := hcoe r (List.mem_cons_self r rs)
    have step : groupStep d ⟨[], [], PyVal.vint 0⟩ r =
        some ⟨[], List.map SparqlBinding.value [r], r.stanzaNo⟩ := by
      simp [groupStep, hr2, h0, pyToInt]
    obtain ⟨st2, hloop, heq⟩ := groupLoop_runsGo d rs
      (fun x hx => hpos x (List.mem_cons_of_mem r hx))
      (fun x hx => hcoe x (List.mem_cons_of_mem r hx))
      [] [r] r.stanzaNo k hk hkpos
    unfold group_feature_by_stanzas
    simp only [groupLoop, step, hloop, heq]
    simp [stanzaRuns]

/-- Witness for C1: the literal input of the specification, five rows of
stanza and value pairs, yields the two stanzas of the claim. -/
theorem C1_witness :
    group_feature_by_stanzas literalRows "str" =
      some [[PyVal.vstr "a", PyVal.vstr "b"],
            [PyVal.vstr "c", PyVal.vstr "d", PyVal.vstr "e"]] := by
  have hpos : ∀ r ∈ literalRows, ∃ k : Int, pyToInt r.stanzaNo = some k ∧ 0 < k := by
    intro r hr
    simp only [literalRows, List.mem_cons, List.not_mem_nil, or_false] at hr
    rcases hr with rfl | rfl | rfl | rfl | rfl
    · exact ⟨1, rfl, by decide⟩
    · exact ⟨1, rfl, by decide⟩
    · exact ⟨2, rfl, by decide⟩
    · exact ⟨2, rfl, by decide⟩
    · exact ⟨2, rfl, by decide⟩
  have h := C1_group_feature_by_stanzas_partitions "str" literalRows
    (by decide) hpos (by decide)
  rw [h]
  decide

/-- C2: group_feature_by_stanzas unconditionally appends the final
accumulator after its loop, so the empty input yields exactly one stanza
containing an empty sequence, not an empty output. -/
theorem C2_empty_input_yields_one_empty_stanza (d : String) :
    group_feature_by_stanzas [] d = some [[]] := rfl

/-- C8: with datatype flag int the value field is coerced to an integer,
so the string value 11 becomes the integer 11; with any flag other than
the integer and string flags the value passes through uncoerced, so the
raw string value 11 comes out as the string 11. -/
theorem C8_datatype_coercion (d : String)
    (hd : d ≠ "int" ∧ d ≠ "Integer" ∧ d ≠ "str" ∧ d ≠ "String") :
    group_feature_by_stanzas [⟨PyVal.vint 1, PyVal.vstr "11"⟩] "int" =
        some [[PyVal.vint 11]] ∧
    group_feature_by_stanzas [⟨PyVal.vint 1, PyVal.vstr "11"⟩] d =
        some [[PyVal.vstr "11"]] := by
  obtain ⟨h1, h2, h3, h4⟩ := hd
  have hco : coerceValue d (PyVal.vstr "11") = some (PyVal.vstr "11") := by
    simp [coerceValue, h1, h2, h3, h4]
  refine ⟨by decide, ?_⟩
  simp [group_feature_by_stanzas, groupLoop, groupStep, hco, pyEq, pyToInt]

/-- Witness for C8 at the concrete flag float, which is neither the
integer nor the string flag. -/
theorem C8_witness :
    group_feature_by_stanzas [⟨PyVal.vint 1, PyVal.vstr "11"⟩] "int" =
        some [[PyVal.vint 11]] ∧
    group_feature_by_stanzas [⟨PyVal.vint 1, PyVal.vstr "11"⟩] "float" =
        some [[PyVal.vstr "11"]] :=
  C8_datatype_coercion "float" (by decide)

/-- C9: leading rows carrying the sentinel stanza number 0 are silently
dropped as soon as a row with a different stanza number follows, because
the guard on int of the current stanza marker discards the accumulated
group instead of emitting it: the output on such an input equals the
output on the input with the sentinel rows removed. -/
theorem C9_leading_sentinel_rows_dropped (d : String)
    (zeros : List SparqlBinding) (r : SparqlBinding) (rest : List SparqlBinding)
    (hz : ∀ z ∈ zeros, z.stanzaNo = PyVal.vint 0)
    (hc : ∀ z ∈ zeros, (coerceValue d z.value).isSome = true)
    (hr : pyEq (PyVal.vint 0) r.stanzaNo = false) :
    group_feature_by_stanzas (zeros ++ r :: rest) d =
      group_feature_by_stanzas (r :: rest) d := by
  obtain ⟨ws, hws⟩ := groupLoop_same_stanza_total d zeros ⟨[], [], PyVal.vint 0⟩
    (fun z hz2 => by
      show pyEq (PyVal.vint 0) z.stanzaNo = true
      rw [hz z hz2]
      decide)
    hc
  unfold group_feature_by_stanzas
  rw [groupLoop_append d zeros (r :: rest) ⟨[], [], PyVal.vint 0⟩, hws]
  simp only [groupLoop]
  cases hcv : coerceValue d r.value with
  | none => simp [groupStep, hcv]
  | some w =>
    have s1 : groupStep d { GroupState.mk [] [] (PyVal.vint 0) with stanza := [] ++ ws } r =
        some ⟨[], [w], r.stanzaNo⟩ := by
      simp [groupStep, hcv, hr, pyToInt]
    have s2 : groupStep d ⟨[], [], PyVal.vint 0⟩ r = some ⟨[], [w], r.stanzaNo⟩ := by
      simp [groupStep, hcv, hr, pyToInt]
    rw [s1, s2]

/-- Witness for C9: two rows with stanza number 0 followed by one row with
stanza number 1 yield a single stanza holding only the third value, the
first two values being dropped. -/
theorem C9_witness :
    group_feature_by_stanzas
      [⟨PyVal.vint 0, PyVal.vstr "x"⟩, ⟨PyVal.vint 0, PyVal.vstr "y"⟩,
       ⟨PyVal.vint 1, PyVal.vstr "z"⟩] "str" = some [[PyVal.vstr "z"]] := by
  have h := C9_leading_sentinel_rows_dropped "str"
    [⟨PyVal.vint 0, PyVal.vstr "x"⟩, ⟨PyVal.vint 0, PyVal.vstr "y"⟩]
    ⟨PyVal.vint 1, PyVal.vstr "z"⟩ []
    (by decide) (by decide) (by decide)
  exact Eq.trans h (by decide)

/-- C3 counterexample: get_title does raise on zero result rows, because
its length check accepts only a one element result list, so the claim
that every single valued accessor resolves zero rows to an absent value
is false for get_title. -/
theorem C3_counterexample_get_title_zero_rows_raises :
    get_title none true (some "http://postdata.linhd.uned.es/resource/pw_a_b") [] =
      Except.error "Poem has multiple titles. Not implemented." := by
  rfl

/-- C3 amended: get_creation_year and get_author_uris resolve a zero row
result to an absent value (None) without raising; get_title instead
raises on zero rows, its single length check rejecting the empty result
with the multiple titles message. -/
theorem C3_zero_rows_resolve_absent (u : String) (hu : u ≠ "") :
    get_creation_year none true (some u) [] = Except.ok none ∧
    get_author_uris none true (some u) [] = Except.ok none ∧
    get_title none true (some u) [] =
      Except.error "Poem has multiple titles. Not implemented." := by
  have ht : pyTruthyStr (some u) = true := by
    simpa [pyTruthyStr] using hu
  refine ⟨?_, ?_, ?_⟩
  · simp [get_creation_year, pyTruthyStr, hu]
  · simp [get_author_uris, pyTruthyList, ht]
  · simp [get_title, pyTruthyStr, hu]

/-- Witness for the amended C3 at a concrete poem uri. -/
theorem C3_witness :
    get_creation_year none true (some "http://postdata.linhd.uned.es/resource/pw_a_b") [] =
      Except.ok none ∧
    get_author_uris none true (some "http://postdata.linhd.uned.es/resource/pw_a_b") [] =
      Except.ok none ∧
    get_title none true (some "http://postdata.linhd.uned.es/resource/pw_a_b") [] =
      Except.error "Poem has multiple titles. Not implemented." :=
  C3_zero_rows_resolve_absent "http://postdata.linhd.uned.es/resource/pw_a_b" (by decide)

/-- C4: when the underlying query yields more than one row, get_title and
get_creation_year raise a multiple values error instead of silently
picking one of the rows. -/
theorem C4_multiple_rows_raise (u a b : String) (rest : List String) (hu : u ≠ "") :
    get_title none true (some u) (a :: b :: rest) =
      Except.error "Poem has multiple titles. Not implemented." ∧
    get_creation_year none true (some u) (a :: b :: rest) =
      Except.error "Multiple values for creation year. Not implemented." := by
  have ht : pyTruthyStr (some u) = true := by
    simpa [pyTruthyStr] using hu
  constructor
  · simp [get_title, pyTruthyStr, hu]
  · simp [get_creation_year, pyTruthyStr, hu]

/-- Witness for C4 at a concrete two row result. -/
theorem C4_witness :
    get_title none true (some "http://postdata.linhd.uned.es/resource/pw_a_b")
      ["title one", "title two"] =
      Except.error "Poem has multiple titles. Not implemented." ∧
    get_creation_year none true (some "http://postdata.linhd.uned.es/resource/pw_a_b")
      ["1600", "1601"] = Except.error "Multiple values for creation year. Not implemented." :=
  ⟨(C4_multiple_rows_raise "http://postdata.linhd.uned.es/resource/pw_a_b"
      "title one" "title two" [] (by decide)).1,
   (C4_multiple_rows_raise "http://postdata.linhd.uned.es/resource/pw_a_b"
      "1600" "1601" [] (by decide)).2⟩

/-- C5: a second call of get_analysis on the same poem instance returns
the cached record of the first call, identical to it, and leaves the
instance state, including the query counter, unchanged, so no further
query is executed against the store. -/
theorem C5_get_analysis_memoized (database : Bool) (uri : Option String)
    (store : Store) (s0 s1 : AnState) (a : Analysis)
    (h : get_analysis database uri store s0 = (Except.ok a, s1)) :
    get_analysis database uri store s1 = (Except.ok a, s1) := by
  unfold get_analysis at h ⊢
  cases hc : s0.automatic_analysis with
  | some a0 =>
    rw [hc] at h
    injection h with he hs
    injection he with he2
    subst hs
    rw [hc, he2]
  | none =>
    rw [hc] at h
    cases hcm : compute_analysis database uri store s0 with
    | mk r s2 =>
      rw [hcm] at h
      cases r with
      | error e => simp [qbind] at h
      | ok a2 =>
        simp only [qbind] at h
        injection h with he hs
        injection he with he2
        subst he2
        subst hs
        rfl

/-- Witness for C5: on the demonstration store the first call builds and
caches the record with thirteen queries, and the second call returns the
identical record with the state, including the query counter, unchanged. -/
theorem C5_witness :
    get_analysis true (some "poem") demoStore ⟨0, none⟩ =
      (Except.ok demoAnalysis, ⟨13, some demoAnalysis⟩) ∧
    get_analysis true (some "poem") demoStore ⟨13, some demoAnalysis⟩ =
      (Except.ok demoAnalysis, ⟨13, some demoAnalysis⟩) :=
  have h : get_analysis true (some "poem") demoStore ⟨0, none⟩ =
      (Except.ok demoAnalysis, ⟨13, some demoAnalysis⟩) := rfl
  ⟨h, C5_get_analysis_memoized true (some "poem") demoStore
    ⟨0, none⟩ ⟨13, some demoAnalysis⟩ demoAnalysis h⟩

/-- Sequencing two cache preserving operations is cache preserving. -/
theorem qbind_cp {α β : Type} (f : AnState → QRes α) (g : α → AnState → QRes β)
    (hf : CachePreserving f) (hg : ∀ a, CachePreserving (g a)) :
    CachePreserving (fun s => qbind (f s) g) := by
  intro s
  have hf2 := hf s
  show (qbind (f s) g).2.automatic_analysis = s.automatic_analysis
  cases hfs : f s with
  | mk r s2 =>
    rw [hfs] at hf2
    cases r with
    | error e => simpa [qbind] using hf2
    | ok a =>
      simp only [qbind]
      rw [hg a s2]
      exact hf2

/-- The query execution wrapper only advances the query counter and never
touches the memoized analysis attribute. -/
theorem execute_sparql_query_cp {α : Type} (database : Bool) (uri : Option String)
    (rows : α) : CachePreserving (execute_sparql_query database uri rows) := by
  intro s
  simp only [execute_sparql_query]
  split
  · split <;> rfl
  · rfl

/-- A getter of the standard shape, one query followed by a pure result
extraction, is cache preserving. -/
theorem getter_cp {α β : Type} (database : Bool) (uri : Option String) (rows : α)
    (E : α → Except String β) :
    CachePreserving (fun s =>
      qbind (execute_sparql_query database uri rows s) (fun res s2 => (E res, s2))) :=
  qbind_cp _ _ (execute_sparql_query_cp database uri rows) (fun _ _ => rfl)

/-- The syllable count getter is cache preserving for every syllable type. -/
theorem get_number_of_syllables_cp (syllable_type : String) (database : Bool)
    (uri : Option String) (store : Store) :
    CachePreserving (get_number_of_syllables syllable_type database uri store) := by
  intro s
  simp only [get_number_of_syllables]
  split
  · exact getter_cp database uri store.metricalSyllableCount firstElem s
  · split
    · exact getter_cp database uri store.grammaticalSyllableCount firstElem s
    · rfl

/-- The per stanza syllable getter is cache preserving for every syllable
type. -/
theorem get_number_of_syllables_in_stanzas_cp (syllable_type : String) (database : Bool)
    (uri : Option String) (store : Store) :
    CachePreserving (get_number_of_syllables_in_stanzas syllable_type database uri store) := by
  intro s
  simp only [get_number_of_syllables_in_stanzas]
  split
  · exact getter_cp database uri store.metricalSyllablesRows
      (fun res => liftGroup (group_feature_by_stanzas res "int")) s
  · split
    · exact getter_cp database uri store.grammaticalSyllablesRows
        (fun res => liftGroup (group_feature_by_stanzas res "int")) s
    · rfl

/-- The full sub query pipeline of get_analysis never writes the memoized
analysis attribute: it is only written after every sub step succeeded. -/
theorem compute_analysis_cp (database : Bool) (uri : Option String) (store : Store) :
    CachePreserving (compute_analysis database uri store) := by
  unfold compute_analysis
  apply qbind_cp
  · exact getter_cp database uri store.scansionUris firstElem
  intro u
  apply qbind_cp
  · exact getter_cp database uri store.stanzaCount firstElem
  intro ns
  apply qbind_cp
  · exact getter_cp database uri store.lineCount firstElem
  intro nl
  apply qbind_cp
  · exact getter_cp database uri store.wordCount firstElem
  intro nw
  apply qbind_cp
  · exact getter_cp database uri store.linesInStanzas Except.ok
  intro nls
  apply qbind_cp
  · exact getter_cp database uri store.rhymeSchemes Except.ok
  intro rh
  apply qbind_cp
  · exact get_number_of_syllables_cp "metrical" database uri store
  intro nms
  apply qbind_cp
  · exact get_number_of_syllables_cp "grammatical" database uri store
  intro ngs
  apply qbind_cp
  · exact get_number_of_syllables_in_stanzas_cp "metrical" database uri store
  intro nmss
  apply qbind_cp
  · exact get_number_of_syllables_in_stanzas_cp "grammatical" database uri store
  intro ngss
  apply qbind_cp
  · exact getter_cp database uri store.wordsRows
      (fun res => liftGroup (group_feature_by_stanzas res "int"))
  intro nws
  apply qbind_cp
  · exact getter_cp database uri store.stressRows
      (fun res => liftGroup (group_feature_by_stanzas res "str"))
  intro gsp
  apply qbind_cp
  · exact getter_cp database uri store.metricalPatternRows
      (fun res => liftGroup (group_feature_by_stanzas res "str"))
  intro mp
  intro s
  rfl

/-- C6: when any sub step of get_analysis fails, the aggregation aborts
with the propagated error and no partial record is cached: starting from
an instance without a memoized record, the attribute is still unset in
the state in which the error leaves the instance. -/
theorem C6_get_analysis_error_caches_nothing (database : Bool) (uri : Option String)
    (store : Store) (s0 s1 : AnState) (e : String)
    (h0 : s0.automatic_analysis = none)
    (h : get_analysis database uri store s0 = (Except.error e, s1)) :
    s1.automatic_analysis = none := by
  unfold get_analysis at h
  rw [h0] at h
  cases hcm : compute_analysis database uri store s0 with
  | mk r s2 =>
    rw [hcm] at h
    cases r with
    | ok a2 => simp [qbind] at h
    | error e2 =>
      simp only [qbind] at h
      injection h with he hs
      subst hs
      have hcp := compute_analysis_cp database uri store s0
      rw [hcm] at hcp
      exact hcp.trans h0

/-- Witness for C6: on the store without scansion uris the first sub step
raises an IndexError after one query and the final state still has no
memoized record. -/
theorem C6_witness :
    get_analysis true (some "poem") demoStoreNoScansion ⟨0, none⟩ =
      (Except.error "IndexError: list index out of range", ⟨1, none⟩) ∧
    (AnState.mk 1 none).automatic_analysis = none :=
  have h : get_analysis true (some "poem") demoStoreNoScansion ⟨0, none⟩ =
      (Except.error "IndexError: list index out of range", ⟨1, none⟩) := rfl
  ⟨h, C6_get_analysis_error_caches_nothing true (some "poem") demoStoreNoScansion
    ⟨0, none⟩ ⟨1, none⟩ "IndexError: list index out of range" rfl h⟩

/-- C7: whenever the simplified scansion uri result contains at least one
uri, get_automatic_scansion_uri returns the first one without raising,
even when further uris are present, unlike the other single valued
accessors. -/
theorem C7_scansion_uri_takes_first (uri : Option String) (store : Store) (s : AnState)
    (u : PyVal) (rest : List PyVal) (hu : pyTruthyStr uri = true)
    (h : store.scansionUris = u :: rest) :
    get_automatic_scansion_uri true uri store s = (Except.ok u, incrQuery s) := by
  simp [get_automatic_scansion_uri, execute_sparql_query, qbind, hu, h, firstElem]

/-- Witness for C7: the demonstration store carries two scansion uris and
the first one is returned without an error. -/
theorem C7_witness :
    get_automatic_scansion_uri true (some "poem") demoStore ⟨0, none⟩ =
      (Except.ok (PyVal.vstr "scansion1"), incrQuery ⟨0, none⟩) ∧
    demoStore.scansionUris = [PyVal.vstr "scansion1", PyVal.vstr "scansion2"] :=
  ⟨C7_scansion_uri_takes_first (some "poem") demoStore ⟨0, none⟩
    (PyVal.vstr "scansion1") [PyVal.vstr "scansion2"] (by decide) rfl, rfl⟩

/-- C10: get_metadata with include_authors on a poem whose author query
yields no rows returns a mapping without any authors key, because
load_authors signals False for a poem without authors and the key is only
added on a truthy result. -/
theorem C10_get_metadata_omits_authors_key (pid puri pname : Option String)
    (plurl : String) (store : Store) (s : AnState)
    (hu : pyTruthyStr puri = true) :
    get_metadata pid puri pname plurl true false none true [] store s =
      (Except.ok (base_metadata pid puri pname plurl), s) ∧
    "authors" ∉ (base_metadata pid puri pname plurl).map Prod.fst := by
  constructor
  · have hla : load_authors none true puri [] = Except.ok none := by
      simp [load_authors, get_author_uris, pyTruthyList, hu]
    simp [get_metadata, hla]
  · simp [base_metadata]

/-- Witness for C10 at concrete attribute values. -/
theorem C10_witness :
    get_metadata (some "abc12345") (some "http://postdata.linhd.uned.es/resource/pw_a_b")
        (some "a_b") "http://poetry.linhd.uned.es:3000/en/author/a/poetic-work/b"
        true false none true [] demoStore ⟨0, none⟩ =
      (Except.ok (base_metadata (some "abc12345")
        (some "http://postdata.linhd.uned.es/resource/pw_a_b") (some "a_b")
        "http://poetry.linhd.uned.es:3000/en/author/a/poetic-work/b"), ⟨0, none⟩) ∧
    "authors" ∉ (base_metadata (some "abc12345")
        (some "http://postdata.linhd.uned.es/resource/pw_a_b") (some "a_b")
        "http://poetry.linhd.uned.es:3000/en/author/a/poetic-work/b").map Prod.fst :=
  C10_get_metadata_omits_authors_key (some "abc12345")
    (some "http://postdata.linhd.uned.es/resource/pw_a_b") (some "a_b")
    "http://poetry.linhd.uned.es:3000/en/author/a/poetic-work/b"
    demoStore ⟨0, none⟩ (by decide)
